import Mathlib

/-!
Verification development for the `mmi2grpc` Bluetooth conformance-test
proxies (SDP, SM and L2CAP modules).  The Python handlers are shallowly
embedded as Lean functions: fallible handlers return `Except`, where
`.error` models a raised Python exception and `.ok` the returned string.
-/

namespace Mmi2grpc

/-! ## Python primitives -/

/-- Value of a hexadecimal digit, as accepted by Python `int(_, 16)`. -/
def hexDigitVal (c : Char) : Option Nat :=
  if '0' ≤ c ∧ c ≤ '9' then some (c.toNat - '0'.toNat)
  else if 'a' ≤ c ∧ c ≤ 'f' then some (c.toNat - 'a'.toNat + 10)
  else if 'A' ≤ c ∧ c ≤ 'F' then some (c.toNat - 'A'.toNat + 10)
  else none

/-- Python `int(s, 16)`: an optional `0x`/`0X` marker followed by at least
one hexadecimal digit; `none` models a raised `ValueError`. -/
def pyIntHex (s : String) : Option Nat :=
  let cs :=
    match s.data with
    | '0' :: x :: rest => if x = 'x' ∨ x = 'X' then rest else s.data
    | _ => s.data
  match cs with
  | [] => none
  | _ => cs.foldl (fun acc c => acc.bind fun a => (hexDigitVal c).map fun d => 16 * a + d) (some 0)

/-- Value of a decimal digit. -/
def decDigitVal (c : Char) : Option Nat :=
  if '0' ≤ c ∧ c ≤ '9' then some (c.toNat - '0'.toNat) else none

/-- Python `int(s)` on a string of decimal digits; `none` models a raised
`ValueError` (in particular on the empty string). -/
def pyIntDec (s : String) : Option Nat :=
  match s.data with
  | [] => none
  | cs => cs.foldl (fun acc c => acc.bind fun a => (decDigitVal c).map fun d => 10 * a + d) (some 0)

/-- Assignment `m[k] = v` on a Python `dict` modelled as an association
list: overwriting keeps the key's insertion position, a new key is
appended. -/
def dictSet (m : List (String × String)) (k v : String) : List (String × String) :=
  match m with
  | [] => [(k, v)]
  | (k', v') :: rest => if k' = k then (k', v) :: rest else (k', v') :: dictSet rest k v

/-- Subscript access `m[k]` on a Python `dict`; `.error` models a raised
`KeyError`. -/
def dictGet (m : List (String × String)) (k : String) : Except String String :=
  match m.lookup k with
  | some v => Except.ok v
  | none => Except.error "KeyError"

/-! ## SDP proxy: `TSC_SDP_mmi_verify_browsable_services` (sdp.py) -/

/-- The module-level `UUID_TO_SERVICE_NAME` table of sdp.py. -/
def UUID_TO_SERVICE_NAME : List (Nat × String) := [
  (0x1105, "OBEXObjectPush"),
  (0x110A, "AudioSource"),
  (0x110C, "A/V_RemoteControlTarget"),
  (0x110E, "A/V_RemoteControl"),
  (0x110F, "A/V_RemoteControlController"),
  (0x1112, "Headset - Audio Gateway"),
  (0x1115, "PANU"),
  (0x1116, "NAP"),
  (0x111F, "HandsfreeAudioGateway"),
  (0x112F, "Phonebook Access - PSE"),
  (0x1132, "Message Access Server"),
  (0x1203, "GenericAudio"),
  (0x1800, "Generic Access"),
  (0x1801, "Generic Attribute service"),
  (0x1855, "TMAS"),
  (0xc26cf57233694cf2b5ccd2cd130f5b2c, "Android Auto Compatibility")]

/-- `UUID_TO_SERVICE_NAME.get(int(uuid, 16), uuid)`: translate one reported
UUID string to a service name, unknown UUIDs passing through as their
literal value; `none` models the `ValueError` of a malformed UUID. -/
def translateUuid (uuid : String) : Option String :=
  (pyIntHex uuid).map fun n => (UUID_TO_SERVICE_NAME.lookup n).getD uuid

/-- The `expected_services` list of `TSC_SDP_mmi_verify_browsable_services`. -/
def expected_services : List String := [
  "Generic Attribute service",
  "Generic Access",
  "AudioSource",
  "A/V_RemoteControlTarget",
  "A/V_RemoteControl",
  "A/V_RemoteControlController",
  "Headset - Audio Gateway",
  "GenericAudio",
  "HandsfreeAudioGateway",
  "GenericAudio",
  "Message Access Server",
  "NAP",
  "PANU",
  "TMAS",
  "Phonebook Access - PSE",
  "OBEXObjectPush",
  "Android Auto Compatibility"]

/-- The `optional_services` list of `TSC_SDP_mmi_verify_browsable_services`. -/
def optional_services : List String := [
  "Generic Attribute service",
  "A/V_RemoteControlController",
  "Android Auto Compatibility",
  "TMAS"]

/-- The `movable_services` list of `TSC_SDP_mmi_verify_browsable_services`. -/
def movable_services : List String := [
  "Message Access Server",
  "TMAS"]

/-- The `optional_not_present` lambda: an optional service that does not
occur in the reported list. -/
def optionalNotPresent (reported : List String) (service : String) : Bool :=
  optional_services.contains service && !(reported.contains service)

/-- `expected_services` after `filterfalse(optional_not_present, ...)`. -/
def effectiveExpected (reported : List String) : List String :=
  expected_services.filter fun s => !(optionalNotPresent reported s)

/-- `movable_services` after `filterfalse(optional_not_present, ...)`. -/
def effectiveMovable (reported : List String) : List String :=
  movable_services.filter fun s => !(optionalNotPresent reported s)

/-- The comparison steps of `TSC_SDP_mmi_verify_browsable_services`, on the
translated `reported_services` list: `assertCountEqual` of the movable
elements (multiset equality), then `assertEqual` of both lists with movable
elements removed. -/
def checkServices (reported : List String) : Except String String :=
  let movable := effectiveMovable reported
  let expected := effectiveExpected reported
  let movableNames := reported.filter fun x => movable.contains x
  if movableNames.isPerm movable then
    let reportedFixed := reported.filter fun k => !(movable.contains k)
    let expectedFixed := expected.filter fun k => !(movable.contains k)
    if reportedFixed = expectedFixed then Except.ok "OK"
    else Except.error "assertEqual failed: fixed-order services differ"
  else Except.error "assertCountEqual failed: movable services differ"

/-- Left-to-right scan of `str.split(", ")` over the character list: a
comma followed by a space separates fields, everything else is field
content (`acc` holds the current field reversed). -/
def splitCommaSpaceAux : List Char → List Char → List String
  | [], acc => [⟨acc.reverse⟩]
  | ',' :: ' ' :: rest, acc => (⟨acc.reverse⟩ : String) :: splitCommaSpaceAux rest []
  | c :: rest, acc => splitCommaSpaceAux rest (c :: acc)

/-- Python `uuids.split(", ")`. -/
def pySplitCommaSpace (s : String) : List String :=
  splitCommaSpaceAux s.data []

/-- The whole handler body on the regex-captured `uuids` group: split on
`", "`, translate every UUID, then run the comparison. -/
def TSC_SDP_mmi_verify_browsable_services (uuids : String) : Except String String :=
  match (pySplitCommaSpace uuids).mapM translateUuid with
  | none => Except.error "ValueError"
  | some reported_services => checkServices reported_services

/-! ## SM proxy: `_handle_pairing_requests` (sm.py) -/

/-- Modelled from the spec: the pairing-event variants the responder
distinguishes (the protobuf event type itself is external to the
repository); each event carries exactly one variant — just-works,
numeric-comparison, or passkey-entry-request. -/
inductive PairingEvent
  | justWorks
  | numericComparison
  | passkeyEntryRequest
deriving DecidableEq

/-- The `event.just_works` field test. -/
def PairingEvent.just_works : PairingEvent → Bool
  | .justWorks => true
  | _ => false

/-- The `event.numeric_comparison` field test. -/
def PairingEvent.numeric_comparison : PairingEvent → Bool
  | .numericComparison => true
  | _ => false

/-- The `event.passkey_entry_request` field test. -/
def PairingEvent.passkey_entry_request : PairingEvent → Bool
  | .passkeyEntryRequest => true
  | _ => false

/-- A `PairingEventAnswer` message sent back on the pairing stream: either
`confirm=...` or `passkey=...`, echoing the event it answers. -/
inductive PairingEventAnswer
  | confirm (event : PairingEvent) (value : Bool)
  | passkey (event : PairingEvent) (value : Nat)
deriving DecidableEq

/-- `Queue.get(timeout=15)` on the passkey queue.  The queue is modelled as
the list of values available on it (or arriving at it) within the
15-second window, oldest first; `.error` models the raised `queue.Empty`
timeout. -/
def queueGet (queue : List String) : Except String (String × List String) :=
  match queue with
  | [] => Except.error "Empty"
  | p :: rest => Except.ok (p, rest)

/-- One iteration of the `for event in pairing_events` loop of the
`_handle_pairing_requests` background task: returns the answers sent for
this event and the passkey queue afterwards.  The `except Empty` branch
only logs, so a timeout yields no answer and no error; a `ValueError` from
`int(passkey)` is not caught and escapes as `.error`. -/
def handlePairingEvent (event : PairingEvent) (queue : List String) :
    Except String (List PairingEventAnswer × List String) :=
  let answers := if event.just_works || event.numeric_comparison then
    [PairingEventAnswer.confirm event true] else []
  if event.passkey_entry_request then
    match queueGet queue with
    | Except.ok (p, rest) =>
      match pyIntDec p with
      | some n => Except.ok (answers ++ [PairingEventAnswer.passkey event n], rest)
      | none => Except.error "ValueError"
    | Except.error _ => Except.ok (answers, queue)
  else
    Except.ok (answers, queue)

/-- The responder loop over a finite prefix of the pairing-event stream,
threading the passkey queue through and collecting all answers sent. -/
def runResponder (events : List PairingEvent) (queue : List String) :
    Except String (List PairingEventAnswer × List String) :=
  match events with
  | [] => Except.ok ([], queue)
  | event :: rest =>
    match handlePairingEvent event queue with
    | Except.error e => Except.error e
    | Except.ok (answers, queue1) =>
      match runResponder rest queue1 with
      | Except.error e => Except.error e
      | Except.ok (answers1, queue2) => Except.ok (answers ++ answers1, queue2)

/-! ## L2CAP proxy (l2cap.py) -/

/-- The mutable `L2CAPProxy` state the modelled handlers touch: the
connection handle, the channel handle, and the per-test status map.
Handles are modelled as opaque numeric tokens. -/
structure L2CAPState where
  connection : Option Nat
  channel : Option Nat
  test_status_map : List (String × String)
deriving DecidableEq

/-- Outcome of the remote `self.l2cap.Connect(...)` call: either the RPC
raised, or it returned a response whose `channel` field is present or not
(`error` being the response's error message). -/
inductive ConnectOutcome
  | raised (e : String)
  | response (channel : Option Nat) (error : String)
deriving DecidableEq

/-- A `Connect` outcome that does not produce a channel: the RPC raised, or
the response has no `channel` field (in which case the handler raises
`Exception(connect_response.error)` inside the same `try`). -/
def ConnectOutcome.failed : ConnectOutcome → Bool
  | .raised _ => true
  | .response ch _ => ch.isNone

/-- The exception message reaching the `except` clause of a failed
`Connect` outcome. -/
def ConnectOutcome.errMessage : ConnectOutcome → String
  | .raised e => e
  | .response _ err => err

/-- The `tests_target_to_fail` allowlist of
`MMI_IUT_SEND_LE_CREDIT_BASED_CONNECTION_REQUEST`. -/
def tests_target_to_fail : List String := [
  "L2CAP/LE/CFC/BV-01-C",
  "L2CAP/LE/CFC/BV-04-C",
  "L2CAP/LE/CFC/BV-14-C",
  "L2CAP/LE/CFC/BV-16-C",
  "L2CAP/LE/CFC/BV-18-C",
  "L2CAP/LE/CFC/BV-19-C",
  "L2CAP/LE/CFC/BV-21-C"]

/-- `MMI_IUT_SEND_LE_CREDIT_BASED_CONNECTION_REQUEST`.  `advConnection`
models `next(self.advertise).connection` and `connectOutcome` the remote
`Connect` call.  `.error (e, st)` models an exception `e` propagating out
of the handler with the proxy state left as `st`; `.ok (r, st)` a normal
return. -/
def MMI_IUT_SEND_LE_CREDIT_BASED_CONNECTION_REQUEST (test : String)
    (st : L2CAPState) (advConnection : Nat) (connectOutcome : ConnectOutcome) :
    Except (String × L2CAPState) (String × L2CAPState) :=
  if st.connection.isSome ∧ test = "L2CAP/LE/CFC/BV-02-C" then
    Except.ok ("OK", st)
  else if st.connection.isSome then
    Except.error ("the connection should be None for the first call", st)
  else
    let st1 : L2CAPState := ⟨some advConnection, st.channel, st.test_status_map⟩
    let _psm : Nat :=
      if test = "L2CAP/LE/CFC/BV-04-C" then 0xF1
      else if test = "L2CAP/LE/CFC/BV-10-C" then 0xF2
      else if test = "L2CAP/LE/CFC/BV-12-C" then 0xF3
      else 0x25
    match connectOutcome with
    | ConnectOutcome.raised e =>
      if tests_target_to_fail.contains test then
        Except.ok ("OK", ⟨st1.connection, st1.channel, dictSet st1.test_status_map test "OK"⟩)
      else
        Except.error (e, st1)
    | ConnectOutcome.response ch err =>
      match ch with
      | some c => Except.ok ("OK", ⟨st1.connection, some c, st1.test_status_map⟩)
      | none =>
        if tests_target_to_fail.contains test then
          Except.ok ("OK", ⟨st1.connection, st1.channel, dictSet st1.test_status_map test "OK"⟩)
        else
          Except.error (err, st1)

/-- `MMI_UPPER_TESTER_CONFIRM_RECEIVE_REJECT_PSM`: reads
`self.test_status_map[test]` (raising `KeyError` when absent) and raises
unless the recorded status is `"OK"`. -/
def MMI_UPPER_TESTER_CONFIRM_RECEIVE_REJECT_PSM (test : String)
    (test_status_map : List (String × String)) : Except String String :=
  match dictGet test_status_map test with
  | Except.error e => Except.error e
  | Except.ok v =>
    if v ≠ "OK" then Except.error "Unexpected RECEIVE_COMMAND" else Except.ok "OK"

/-- `MMI_UPPER_TESTER_CONFIRM_RECEIVE_COMMAND_NOT_UNDERSTAOOD`: same body
as the other confirm-reject handlers. -/
def MMI_UPPER_TESTER_CONFIRM_RECEIVE_COMMAND_NOT_UNDERSTAOOD (test : String)
    (test_status_map : List (String × String)) : Except String String :=
  match dictGet test_status_map test with
  | Except.error e => Except.error e
  | Except.ok v =>
    if v ≠ "OK" then Except.error "Unexpected RECEIVE_COMMAND" else Except.ok "OK"

/-- The `LE_DATA_PACKET_LARGE` class constant of `L2CAPProxy`. -/
def LE_DATA_PACKET_LARGE : String := "data: LE_DATA_PACKET_LARGE"

/-- The `LE_DATA_PACKET1` class constant of `L2CAPProxy`. -/
def LE_DATA_PACKET1 : String := "data: LE_PACKET1"

/-- UTF-8 encoding of one character, as `str.encode("utf-8")` produces. -/
def utf8EncodeChar (c : Char) : List Nat :=
  let n := c.toNat
  if n < 0x80 then [n]
  else if n < 0x800 then [0xC0 + n / 0x40, 0x80 + n % 0x40]
  else if n < 0x10000 then
    [0xE0 + n / 0x1000, 0x80 + n / 0x40 % 0x40, 0x80 + n % 0x40]
  else
    [0xF0 + n / 0x40000, 0x80 + n / 0x1000 % 0x40, 0x80 + n / 0x40 % 0x40, 0x80 + n % 0x40]

/-- `s.encode("utf-8")` as a list of byte values. -/
def utf8Encode (s : String) : List Nat :=
  s.data.flatMap utf8EncodeChar

/-- One uppercase hexadecimal digit, as `bytes.hex()` followed by
`str.upper()` renders it. -/
def hexDigitUpper (n : Nat) : Char :=
  if n < 10 then Char.ofNat ('0'.toNat + n) else Char.ofNat ('A'.toNat + (n - 10))

/-- `bs.hex().upper()`: two uppercase hexadecimal digits per byte. -/
def bytesHexUpper (bs : List Nat) : String :=
  ⟨bs.flatMap fun b => [hexDigitUpper (b / 16), hexDigitUpper (b % 16)]⟩

/-- The byte payload `MMI_UPPER_TESTER_SEND_LE_DATA_PACKET_LARGE` transmits
with `self.l2cap.Send`: `bytes(self.LE_DATA_PACKET_LARGE, "utf-8")`. -/
def sendLeDataPacketLargePayload : List Nat := utf8Encode LE_DATA_PACKET_LARGE

/-- The byte payload `MMI_UPPER_TESTER_SEND_LE_DATA_PACKET1` transmits with
`self.l2cap.Send`: `bytes(self.LE_DATA_PACKET1, "utf-8")`. -/
def sendLeDataPacket1Payload : List Nat := utf8Encode LE_DATA_PACKET1

/-- `MMI_UPPER_TESTER_CONFIRM_LE_DATA`: compares the regex-captured
`sent_data` hex string with the uppercase hex encoding of the packet
constant selected by the current test. -/
def MMI_UPPER_TESTER_CONFIRM_LE_DATA (sent_data test : String) : Except String String :=
  let hex_LE_DATA_PACKET :=
    if test = "L2CAP/COS/CFC/BV-02-C" then bytesHexUpper (utf8Encode LE_DATA_PACKET1)
    else bytesHexUpper (utf8Encode LE_DATA_PACKET_LARGE)
  if sent_data ≠ hex_LE_DATA_PACKET then
    Except.error ("data not match, sent_data:" ++ sent_data ++ " and " ++ hex_LE_DATA_PACKET)
  else
    Except.ok "OK"

/-! ## Theorems -/

deriving instance DecidableEq for Except

/-- The fixed expected service sequence with the movable-and-optional
service `TMAS` removed. -/
def expectedWithoutTMAS : List String :=
  expected_services.filter fun s => s ≠ "TMAS"

theorem checkServices_insertIdx_tmas :
    ∀ i : Fin 17, checkServices (List.insertIdx i.val "TMAS" expectedWithoutTMAS) =
      Except.ok "OK" := by
  decide

/-- C1: for every reported UUID list whose translation is the fixed
expected service sequence with the movable-and-optional service `TMAS`
inserted at any position, `TSC_SDP_mmi_verify_browsable_services` passes
and returns `"OK"`, regardless of the position of `TMAS`. -/
theorem C1_browsable_services_tmas_any_position (uuids : String) (i : Nat)
    (hi : i ≤ expectedWithoutTMAS.length)
    (h : (pySplitCommaSpace uuids).mapM translateUuid =
      some (List.insertIdx i "TMAS" expectedWithoutTMAS)) :
    TSC_SDP_mmi_verify_browsable_services uuids = Except.ok "OK" := by
  have hlen : expectedWithoutTMAS.length = 16 := by decide
  rw [hlen] at hi
  have hstep := checkServices_insertIdx_tmas ⟨i, by omega⟩
  unfold TSC_SDP_mmi_verify_browsable_services
  rw [h]
  exact hstep

/-- The UUID list reported by the canonical device configuration, with
`TMAS` (`0x1855`) at its reference position. -/
def canonicalUuids : String :=
  "0x1801, 0x1800, 0x110A, 0x110C, 0x110E, 0x110F, 0x1112, 0x1203, 0x111F, " ++
  "0x1203, 0x1132, 0x1116, 0x1115, 0x1855, 0x112F, 0x1105, " ++
  "0xC26CF57233694CF2B5CCD2CD130F5B2C"

theorem C1_browsable_services_tmas_any_position_witness :
    TSC_SDP_mmi_verify_browsable_services canonicalUuids = Except.ok "OK" :=
  C1_browsable_services_tmas_any_position canonicalUuids 13 (by decide) (by decide)

/-- One of the sixteen subsets of `optional_services`, as a list. -/
def optionalSubset (b1 b2 b3 b4 : Bool) : List String :=
  (if b1 then ["Generic Attribute service"] else []) ++
  (if b2 then ["A/V_RemoteControlController"] else []) ++
  (if b3 then ["Android Auto Compatibility"] else []) ++
  (if b4 then ["TMAS"] else [])

theorem checkServices_eq_ok_iff (reported : List String) :
    checkServices reported = Except.ok "OK" ↔
      ((reported.filter fun x => (effectiveMovable reported).contains x).isPerm
          (effectiveMovable reported) = true
        ∧ (reported.filter fun k => !((effectiveMovable reported).contains k)) =
          ((effectiveExpected reported).filter fun k =>
            !((effectiveMovable reported).contains k))) := by
  unfold checkServices
  by_cases h1 : (reported.filter fun x => (effectiveMovable reported).contains x).isPerm
      (effectiveMovable reported) = true
  · rw [if_pos h1]
    by_cases h2 : (reported.filter fun k => !((effectiveMovable reported).contains k)) =
        ((effectiveExpected reported).filter fun k => !((effectiveMovable reported).contains k))
    · rw [if_pos h2]
      exact iff_of_true rfl ⟨h1, h2⟩
    · rw [if_neg h2]
      exact iff_of_false (by intro he; exact Except.noConfusion he) (fun hc => h2 hc.2)
  · rw [if_neg h1]
    exact iff_of_false (by intro he; exact Except.noConfusion he) (fun hc => h1 hc.1)

/-- C2: an optional service absent from the translated reported list is
removed from the expected and movable lists before comparison; removing
any subset of optional services from the canonical reported sequence still
passes the check; and when an optional service is present in a reported
list that passes, it occurs in its bucket — among the reported movable
elements if movable, otherwise in the fixed-order part of the expected
sequence. -/
theorem C2_optional_services_removed :
    (∀ reported s, s ∈ optional_services → s ∉ reported →
      s ∉ effectiveExpected reported ∧ s ∉ effectiveMovable reported)
    ∧ (∀ b1 b2 b3 b4 : Bool,
        checkServices (expected_services.filter fun s =>
          !((optionalSubset b1 b2 b3 b4).contains s)) = Except.ok "OK")
    ∧ (∀ reported t, checkServices reported = Except.ok "OK" →
        t ∈ optional_services → t ∈ reported →
        (t ∈ effectiveMovable reported →
          t ∈ reported.filter fun x => (effectiveMovable reported).contains x)
        ∧ (t ∉ effectiveMovable reported →
          t ∈ (effectiveExpected reported).filter fun x =>
            !((effectiveMovable reported).contains x))) := by
  refine ⟨?_, ?_, ?_⟩
  · intro reported s hopt habs
    have hb : optionalNotPresent reported s = true := by
      simp [optionalNotPresent, hopt, habs]
    constructor <;> intro hmem
    · simp [effectiveExpected, List.mem_filter, hb] at hmem
    · simp [effectiveMovable, List.mem_filter, hb] at hmem
  · decide
  · intro reported t hok hopt hmem
    have hch := (checkServices_eq_ok_iff reported).mp hok
    refine ⟨fun hmov => ?_, fun hnmov => ?_⟩
    · exact (List.isPerm_iff.mp hch.1).mem_iff.mpr hmov
    · have hfix : t ∈ reported.filter fun k => !((effectiveMovable reported).contains k) := by
        simp [List.mem_filter, hmem, hnmov]
      rw [hch.2] at hfix
      exact hfix

theorem C2_optional_services_removed_witness :
    "TMAS" ∉ effectiveExpected ["Generic Access"] ∧
      "TMAS" ∉ effectiveMovable ["Generic Access"] :=
  C2_optional_services_removed.1 ["Generic Access"] "TMAS" (by decide) (by decide)

/-- Modelled from the spec's words: the comparison fails when the movable
elements of the reported list differ as a multiset from the movable
expected services, or the reported list with movable elements removed
differs as a sequence from the expected list with movable elements
removed (both after removing absent optional services). -/
def specComparatorFails (reported : List String) : Prop :=
  ¬ (reported.filter fun x => (effectiveMovable reported).contains x).Perm
      (effectiveMovable reported)
  ∨ (reported.filter fun k => !((effectiveMovable reported).contains k)) ≠
      ((effectiveExpected reported).filter fun k => !((effectiveMovable reported).contains k))

/-- C3: `TSC_SDP_mmi_verify_browsable_services` raises exactly when, after
translating the reported UUIDs (unknown UUIDs passing through literally)
and removing absent optional services, the movable elements differ as a
multiset or the fixed-order remainders differ as sequences; otherwise it
returns `"OK"`. -/
theorem C3_verify_fails_iff (uuids : String) (reported : List String)
    (h : (pySplitCommaSpace uuids).mapM translateUuid = some reported) :
    ((∃ e, TSC_SDP_mmi_verify_browsable_services uuids = Except.error e) ↔
      specComparatorFails reported)
    ∧ (¬ specComparatorFails reported →
      TSC_SDP_mmi_verify_browsable_services uuids = Except.ok "OK") := by
  have hrw : TSC_SDP_mmi_verify_browsable_services uuids = checkServices reported := by
    unfold TSC_SDP_mmi_verify_browsable_services
    rw [h]
  rw [hrw]
  by_cases h1 : (reported.filter fun x => (effectiveMovable reported).contains x).isPerm
      (effectiveMovable reported) = true
  · by_cases h2 : (reported.filter fun k => !((effectiveMovable reported).contains k)) =
        ((effectiveExpected reported).filter fun k => !((effectiveMovable reported).contains k))
    · have hok : checkServices reported = Except.ok "OK" :=
        (checkServices_eq_ok_iff reported).mpr ⟨h1, h2⟩
      rw [hok]
      constructor
      · constructor
        · rintro ⟨e, he⟩
          exact Except.noConfusion he
        · rintro (hnp | hne)
          · exact absurd (List.isPerm_iff.mp h1) hnp
          · exact absurd h2 hne
      · intro _
        rfl
    · have herr : checkServices reported =
          Except.error "assertEqual failed: fixed-order services differ" := by
        unfold checkServices
        rw [if_pos h1, if_neg h2]
      rw [herr]
      constructor
      · constructor
        · intro _
          exact Or.inr h2
        · intro _
          exact ⟨_, rfl⟩
      · intro hn
        exact absurd (Or.inr h2) hn
  · have herr : checkServices reported =
        Except.error "assertCountEqual failed: movable services differ" := by
      unfold checkServices
      rw [if_neg h1]
    have hnp : ¬ (reported.filter fun x => (effectiveMovable reported).contains x).Perm
        (effectiveMovable reported) := fun hp => h1 (List.isPerm_iff.mpr hp)
    rw [herr]
    constructor
    · constructor
      · intro _
        exact Or.inl hnp
      · intro _
        exact ⟨_, rfl⟩
    · intro hn
      exact absurd (Or.inl hnp) hn

theorem C3_verify_fails_iff_witness :
    ∃ e, TSC_SDP_mmi_verify_browsable_services "0x1855" = Except.error e :=
  (C3_verify_fails_iff "0x1855" ["TMAS"] (by decide)).1.mpr (Or.inl (by decide))

/-- C4: a just-works or numeric-comparison pairing event is answered with
`confirm=True` and nothing else, and the passkey queue is left exactly as
it was — the responder never reads it for such an event. -/
theorem C4_just_works_numeric_comparison_confirm (event : PairingEvent)
    (queue : List String)
    (h : event = PairingEvent.justWorks ∨ event = PairingEvent.numericComparison) :
    handlePairingEvent event queue =
      Except.ok ([PairingEventAnswer.confirm event true], queue) := by
  rcases h with h | h <;> subst h <;> rfl

theorem C4_just_works_numeric_comparison_confirm_witness :
    handlePairingEvent PairingEvent.justWorks ["123456"] =
      Except.ok ([PairingEventAnswer.confirm PairingEvent.justWorks true], ["123456"]) :=
  C4_just_works_numeric_comparison_confirm PairingEvent.justWorks ["123456"] (Or.inl rfl)

/-- C5 counterexample: with `"111111"` placed on the passkey queue before
`"222222"`, the responder answers a passkey-entry-request with `111111` —
the oldest queued value — not with the most recently placed `222222`. -/
theorem C5_counterexample :
    handlePairingEvent PairingEvent.passkeyEntryRequest ["111111", "222222"] =
      Except.ok ([PairingEventAnswer.passkey PairingEvent.passkeyEntryRequest 111111],
        ["222222"])
    ∧ handlePairingEvent PairingEvent.passkeyEntryRequest ["111111", "222222"] ≠
      Except.ok ([PairingEventAnswer.passkey PairingEvent.passkeyEntryRequest 222222],
        ["111111"]) := by
  exact ⟨rfl, by decide⟩

/-- C5 (amended): a passkey-entry-request event with at least one value on
(or arriving at) the passkey queue within 15 seconds is answered with the
integer conversion of the oldest such value — the queue is FIFO, so the
first value placed and not yet consumed is sent, not the most recent. -/
theorem C5_passkey_entry_answers_fifo (p : String) (rest : List String) (n : Nat)
    (h : pyIntDec p = some n) :
    handlePairingEvent PairingEvent.passkeyEntryRequest (p :: rest) =
      Except.ok ([PairingEventAnswer.passkey PairingEvent.passkeyEntryRequest n], rest) := by
  simp [handlePairingEvent, queueGet, h, PairingEvent.just_works,
    PairingEvent.numeric_comparison, PairingEvent.passkey_entry_request]

theorem C5_passkey_entry_answers_fifo_witness :
    handlePairingEvent PairingEvent.passkeyEntryRequest ["123456", "654321"] =
      Except.ok ([PairingEventAnswer.passkey PairingEvent.passkeyEntryRequest 123456],
        ["654321"]) :=
  C5_passkey_entry_answers_fifo "123456" ["654321"] 123456 rfl

/-- C6: when no passkey value is available within the 15-second window,
the passkey-entry-request event is answered with nothing, no exception
escapes the background task (the `queue.Empty` timeout is absorbed), the
wait is not retried, and the responder proceeds to the next event. -/
theorem C6_passkey_timeout_absorbed :
    handlePairingEvent PairingEvent.passkeyEntryRequest [] = Except.ok ([], [])
    ∧ ∀ events, runResponder (PairingEvent.passkeyEntryRequest :: events) [] =
        runResponder events [] := by
  refine ⟨rfl, fun events => ?_⟩
  have h1 : handlePairingEvent PairingEvent.passkeyEntryRequest [] = Except.ok ([], []) := rfl
  cases hr : runResponder events [] with
  | error e =>
    simp [runResponder, h1, hr]
  | ok p =>
    cases p with
    | mk answers queue =>
      simp [runResponder, h1, hr]

/-- C7: `MMI_UPPER_TESTER_CONFIRM_LE_DATA` returns `"OK"` exactly when the
reported hex string equals the uppercase hex encoding of the byte payload
the send handlers transmit (`LE_DATA_PACKET1` for test
`L2CAP/COS/CFC/BV-02-C`, `LE_DATA_PACKET_LARGE` otherwise); on inequality
it raises with a message naming the reported and expected values. -/
theorem C7_confirm_le_data (sent_data test : String) :
    (MMI_UPPER_TESTER_CONFIRM_LE_DATA sent_data test = Except.ok "OK" ↔
      sent_data = bytesHexUpper (if test = "L2CAP/COS/CFC/BV-02-C" then
        sendLeDataPacket1Payload else sendLeDataPacketLargePayload))
    ∧ (sent_data ≠ bytesHexUpper (if test = "L2CAP/COS/CFC/BV-02-C" then
        sendLeDataPacket1Payload else sendLeDataPacketLargePayload) →
      MMI_UPPER_TESTER_CONFIRM_LE_DATA sent_data test =
        Except.error ("data not match, sent_data:" ++ sent_data ++ " and " ++
          bytesHexUpper (if test = "L2CAP/COS/CFC/BV-02-C" then
            sendLeDataPacket1Payload else sendLeDataPacketLargePayload))) := by
  have hpull : (if test = "L2CAP/COS/CFC/BV-02-C" then
        bytesHexUpper (utf8Encode LE_DATA_PACKET1)
      else bytesHexUpper (utf8Encode LE_DATA_PACKET_LARGE)) =
      bytesHexUpper (if test = "L2CAP/COS/CFC/BV-02-C" then
        sendLeDataPacket1Payload else sendLeDataPacketLargePayload) := by
    by_cases ht : test = "L2CAP/COS/CFC/BV-02-C" <;>
      simp [ht, sendLeDataPacket1Payload, sendLeDataPacketLargePayload]
  unfold MMI_UPPER_TESTER_CONFIRM_LE_DATA
  rw [hpull]
  by_cases hs : sent_data = bytesHexUpper (if test = "L2CAP/COS/CFC/BV-02-C" then
      sendLeDataPacket1Payload else sendLeDataPacketLargePayload)
  · rw [if_neg (not_not_intro hs)]
    exact ⟨iff_of_true rfl hs, fun hne => absurd hs hne⟩
  · rw [if_pos hs]
    exact ⟨iff_of_false (fun he => Except.noConfusion he) hs, fun _ => rfl⟩

theorem C7_confirm_le_data_witness :
    MMI_UPPER_TESTER_CONFIRM_LE_DATA "ZZ" "t" =
      Except.error ("data not match, sent_data:" ++ "ZZ" ++ " and " ++
        bytesHexUpper (if "t" = "L2CAP/COS/CFC/BV-02-C" then
          sendLeDataPacket1Payload else sendLeDataPacketLargePayload)) :=
  (C7_confirm_le_data "ZZ" "t").2 (by decide)

/-- C8: when the remote `Connect` call of
`MMI_IUT_SEND_LE_CREDIT_BASED_CONNECTION_REQUEST` fails (it raises, or its
response carries no channel), a test on the `tests_target_to_fail`
allowlist gets `"OK"` recorded in the status map and the handler returns
`"OK"`; for any other test the exception propagates and the status map is
unchanged. -/
theorem C8_connect_failure_allowlist (test : String) (st : L2CAPState) (adv : Nat)
    (outcome : ConnectOutcome) (hconn : st.connection = none)
    (hfail : outcome.failed = true) :
    (test ∈ tests_target_to_fail →
      MMI_IUT_SEND_LE_CREDIT_BASED_CONNECTION_REQUEST test st adv outcome =
        Except.ok ("OK", ⟨some adv, st.channel, dictSet st.test_status_map test "OK"⟩))
    ∧ (test ∉ tests_target_to_fail →
      MMI_IUT_SEND_LE_CREDIT_BASED_CONNECTION_REQUEST test st adv outcome =
        Except.error (outcome.errMessage,
          ⟨some adv, st.channel, st.test_status_map⟩)) := by
  unfold MMI_IUT_SEND_LE_CREDIT_BASED_CONNECTION_REQUEST
  rw [hconn]
  rw [if_neg (by simp), if_neg (by simp)]
  cases outcome with
  | raised e =>
    refine ⟨fun hm => ?_, fun hm => ?_⟩
    · dsimp only
      rw [if_pos (List.elem_iff.mpr hm)]
    · dsimp only [ConnectOutcome.errMessage]
      rw [if_neg (fun hc => hm (List.elem_iff.mp hc))]
  | response ch err =>
    have hch : ch = none := by
      cases ch with
      | none => rfl
      | some c => exact absurd hfail (by simp [ConnectOutcome.failed])
    subst hch
    refine ⟨fun hm => ?_, fun hm => ?_⟩
    · dsimp only
      rw [if_pos (List.elem_iff.mpr hm)]
    · dsimp only [ConnectOutcome.errMessage]
      rw [if_neg (fun hc => hm (List.elem_iff.mp hc))]

theorem C8_connect_failure_allowlist_witness :
    MMI_IUT_SEND_LE_CREDIT_BASED_CONNECTION_REQUEST "L2CAP/LE/CFC/BV-01-C"
        ⟨none, none, []⟩ 1 (ConnectOutcome.raised "boom") =
      Except.ok ("OK", ⟨some 1, none, [("L2CAP/LE/CFC/BV-01-C", "OK")]⟩) :=
  (C8_connect_failure_allowlist "L2CAP/LE/CFC/BV-01-C" ⟨none, none, []⟩ 1
    (ConnectOutcome.raised "boom") rfl rfl).1 (by decide)

/-- C9: the confirm-reject handlers reading `test_status_map` return
`"OK"` exactly when the map holds `"OK"` for the current test; they raise
`KeyError` when the map has no entry for the test, and raise
`Unexpected RECEIVE_COMMAND` when the recorded status differs from
`"OK"`. -/
theorem C9_confirm_reject_status_map (test : String) (m : List (String × String)) :
    (MMI_UPPER_TESTER_CONFIRM_RECEIVE_REJECT_PSM test m = Except.ok "OK" ↔
      m.lookup test = some "OK")
    ∧ (MMI_UPPER_TESTER_CONFIRM_RECEIVE_COMMAND_NOT_UNDERSTAOOD test m = Except.ok "OK" ↔
      m.lookup test = some "OK")
    ∧ (m.lookup test = none →
      MMI_UPPER_TESTER_CONFIRM_RECEIVE_REJECT_PSM test m = Except.error "KeyError"
      ∧ MMI_UPPER_TESTER_CONFIRM_RECEIVE_COMMAND_NOT_UNDERSTAOOD test m =
        Except.error "KeyError")
    ∧ (∀ v, m.lookup test = some v → v ≠ "OK" →
      MMI_UPPER_TESTER_CONFIRM_RECEIVE_REJECT_PSM test m =
        Except.error "Unexpected RECEIVE_COMMAND"
      ∧ MMI_UPPER_TESTER_CONFIRM_RECEIVE_COMMAND_NOT_UNDERSTAOOD test m =
        Except.error "Unexpected RECEIVE_COMMAND") := by
  cases hm : m.lookup test with
  | none =>
    refine ⟨?_, ?_, fun _ => ?_, fun v hv => ?_⟩
    · simp [MMI_UPPER_TESTER_CONFIRM_RECEIVE_REJECT_PSM, dictGet, hm]
    · simp [MMI_UPPER_TESTER_CONFIRM_RECEIVE_COMMAND_NOT_UNDERSTAOOD, dictGet, hm]
    · constructor
      · simp [MMI_UPPER_TESTER_CONFIRM_RECEIVE_REJECT_PSM, dictGet, hm]
      · simp [MMI_UPPER_TESTER_CONFIRM_RECEIVE_COMMAND_NOT_UNDERSTAOOD, dictGet, hm]
    · exact fun _ => absurd hv (by simp)
  | some v =>
    by_cases hv : v = "OK"
    · subst hv
      refine ⟨?_, ?_, fun hn => ?_, fun w hw hne => ?_⟩
      · simp [MMI_UPPER_TESTER_CONFIRM_RECEIVE_REJECT_PSM, dictGet, hm]
      · simp [MMI_UPPER_TESTER_CONFIRM_RECEIVE_COMMAND_NOT_UNDERSTAOOD, dictGet, hm]
      · exact absurd hn (by simp)
      · exact absurd (Option.some.inj hw).symm hne
    · refine ⟨?_, ?_, fun hn => ?_, fun w hw hne => ?_⟩
      · simp [MMI_UPPER_TESTER_CONFIRM_RECEIVE_REJECT_PSM, dictGet, hm, hv]
      · simp [MMI_UPPER_TESTER_CONFIRM_RECEIVE_COMMAND_NOT_UNDERSTAOOD, dictGet, hm, hv]
      · exact absurd hn (by simp)
      · constructor
        · simp [MMI_UPPER_TESTER_CONFIRM_RECEIVE_REJECT_PSM, dictGet, hm, hv]
        · simp [MMI_UPPER_TESTER_CONFIRM_RECEIVE_COMMAND_NOT_UNDERSTAOOD, dictGet, hm, hv]

theorem C9_confirm_reject_status_map_witness :
    MMI_UPPER_TESTER_CONFIRM_RECEIVE_REJECT_PSM "T" [("T", "NOK")] =
      Except.error "Unexpected RECEIVE_COMMAND"
    ∧ MMI_UPPER_TESTER_CONFIRM_RECEIVE_COMMAND_NOT_UNDERSTAOOD "T" [("T", "NOK")] =
      Except.error "Unexpected RECEIVE_COMMAND" :=
  (C9_confirm_reject_status_map "T" [("T", "NOK")]).2.2.2 "NOK" rfl (by decide)

/-- C10: calling `MMI_IUT_SEND_LE_CREDIT_BASED_CONNECTION_REQUEST` while a
connection is already set returns `"OK"` immediately for test
`L2CAP/LE/CFC/BV-02-C`, with no remote call and the state unchanged; for
every other test it fails the assertion that the connection must be
`None` on the first call, again leaving the state unchanged. -/
theorem C10_connection_already_set (test : String) (st : L2CAPState) (c : Nat)
    (hc : st.connection = some c) :
    (test = "L2CAP/LE/CFC/BV-02-C" →
      ∀ adv outcome, MMI_IUT_SEND_LE_CREDIT_BASED_CONNECTION_REQUEST test st adv outcome =
        Except.ok ("OK", st))
    ∧ (test ≠ "L2CAP/LE/CFC/BV-02-C" →
      ∀ adv outcome, MMI_IUT_SEND_LE_CREDIT_BASED_CONNECTION_REQUEST test st adv outcome =
        Except.error ("the connection should be None for the first call", st)) := by
  constructor
  · intro ht adv outcome
    unfold MMI_IUT_SEND_LE_CREDIT_BASED_CONNECTION_REQUEST
    rw [if_pos ⟨by rw [hc]; rfl, ht⟩]
  · intro ht adv outcome
    unfold MMI_IUT_SEND_LE_CREDIT_BASED_CONNECTION_REQUEST
    rw [if_neg (fun hand => ht hand.2), if_pos (by rw [hc]; rfl)]

theorem C10_connection_already_set_witness :
    MMI_IUT_SEND_LE_CREDIT_BASED_CONNECTION_REQUEST "L2CAP/LE/CFC/BV-03-C"
        ⟨some 5, none, []⟩ 7 (ConnectOutcome.raised "x") =
      Except.error ("the connection should be None for the first call",
        ⟨some 5, none, []⟩) :=
  (C10_connection_already_set "L2CAP/LE/CFC/BV-03-C" ⟨some 5, none, []⟩ 5 rfl).2
    (by decide) 7 (ConnectOutcome.raised "x")

end Mmi2grpc
